import Mathlib

/-!
Shallow embedding of the task-management system's persistence and
validation layer (`manager/user_manage.py`, `manager/task_manage.py`,
backed by the MySQL schema of `db/database.py`).

The database is modelled as an in-memory state `DB`; each manager
operation becomes a pure function `DB → ... → Except Err α × DB`
returning the Python function's outcome (returned value or raised
domain exception) together with the post-state.  SQL statements are
modelled by their effect on the state: `SELECT ... fetchone` is
`List.find?`, `SELECT ... fetchall` with a `WHERE` clause is
`List.filter`, `INSERT` appends, `UPDATE` maps, `DELETE` filters.
Transactions that roll back leave the pre-state unchanged.
-/

namespace TaskMgmt

/-- Characters Python's `str.strip()` / `int()` treat as surrounding
whitespace (modelled by Lean's `Char.isWhitespace`). -/
def stripChars (bad : Char → Bool) (s : List Char) : List Char :=
  ((s.dropWhile bad).reverse.dropWhile bad).reverse

/-- Model of Python `str.strip()` with no arguments: remove leading and
trailing whitespace. -/
def pyStrip (s : String) : String :=
  String.mk (stripChars Char.isWhitespace s.toList)

/-- Model of Python `str.isdigit()`: true iff the string is non-empty
and every character is a digit.  In particular it is `false` on the
empty string. -/
def pyIsdigit (s : String) : Bool :=
  let cs := s.toList
  !cs.isEmpty && cs.all Char.isDigit

/-- Remove every (left-to-right, non-overlapping) occurrence of `pat`
from `s`, with explicit fuel; models Python `str.replace(pat, "")`. -/
def removeAllAux (pat : List Char) : Nat → List Char → List Char
  | 0, s => s
  | _ + 1, [] => []
  | fuel + 1, c :: cs =>
    if pat.isPrefixOf (c :: cs) && !pat.isEmpty then
      removeAllAux pat fuel (List.drop (pat.length - 1) cs)
    else
      c :: removeAllAux pat fuel cs

/-- Model of Python `str.replace(pat, "")`. -/
def removeAll (pat s : List Char) : List Char :=
  removeAllAux pat s.length s

/-- Brace characters stripped by CPython's `uuid.UUID` via
`hex.strip('\x7b\x7d')`. -/
def isBrace (c : Char) : Bool :=
  c == '\x7b' || c == '\x7d'

/-- Hexadecimal digit as accepted by Python `int(_, 16)`. -/
def hexDigitB (c : Char) : Bool :=
  ('0' ≤ c && c ≤ '9') || ('a' ≤ c && c ≤ 'f') || ('A' ≤ c && c ≤ 'F')

/-- After an initial hex digit: further hex digits with single
underscores allowed only between digits (Python numeric literal rule
for `int(_, 16)`). -/
def hexBody : List Char → Bool
  | [] => true
  | '_' :: [] => false
  | '_' :: c :: cs => hexDigitB c && hexBody cs
  | c :: cs => hexDigitB c && hexBody cs

/-- Non-empty run of hex digits with internal underscores. -/
def hexDigits : List Char → Bool
  | [] => false
  | c :: cs => hexDigitB c && hexBody cs

/-- Model of Python `int(s, 16)` succeeding: optional surrounding
whitespace, optional sign, optional `0x`/`0X` prefix (an underscore may
follow the prefix), then hex digits with underscores between digits. -/
def pyIntParses16 (s : List Char) : Bool :=
  let t := stripChars Char.isWhitespace s
  let t := match t with
    | '+' :: r => r
    | '-' :: r => r
    | r => r
  let t := match t with
    | '0' :: 'x' :: r => (match r with | '_' :: r2 => r2 | _ => r)
    | '0' :: 'X' :: r => (match r with | '_' :: r2 => r2 | _ => r)
    | r => r
  hexDigits t

/-- Model of CPython's `uuid.UUID(hex=s)` succeeding: remove the
substrings `urn:` and `uuid:`, strip surrounding braces, remove
hyphens, require exactly 32 characters, and parse them as a base-16
integer. -/
def pyUUIDParses (s : String) : Bool :=
  let t := removeAll "urn:".toList s.toList
  let t := removeAll "uuid:".toList t
  let t := stripChars isBrace t
  let t := removeAll ['-'] t
  t.length == 32 && pyIntParses16 t

/-- A row of the `users` table: `id INT AUTO_INCREMENT` (starting at
101), `username VARCHAR(50) UNIQUE NOT NULL`. -/
structure User where
  id : Nat
  username : String
deriving DecidableEq, Repr

/-- A row of the `tasks` table: string-form UUID primary key, owning
user, name, description, server-set timestamps, and status
(`ENUM('Active','Archive') DEFAULT 'Active'`). -/
structure Task where
  id : String
  user_id : Nat
  name : String
  description : String
  created_at : Nat
  updated_at : Nat
  status : String
deriving DecidableEq, Repr

/-- The database state: the two tables, the `AUTO_INCREMENT` counter of
`users` (101 on a freshly initialised schema), and the server clock
used for `TIMESTAMP DEFAULT CURRENT_TIMESTAMP` columns. -/
structure DB where
  users : List User
  nextUserId : Nat
  tasks : List Task
  now : Nat
deriving DecidableEq, Repr

/-- A freshly initialised database (`init_db`): empty tables,
`AUTO_INCREMENT = 101`. -/
def initDB : DB :=
  { users := [], nextUserId := 101, tasks := [], now := 0 }

/-- The domain exceptions of `exception_handler.py` that the manager
layer actually raises, each with the `message`/`status` payload its
constructor receives. -/
inductive Err where
  | notFound (msg : String)
  | badRequest (msg : String)
  | taskOp (msg : String) (stat : String)
  | userCreation (msg : String) (stat : String)
deriving DecidableEq, Repr

/-- The `status` attribute carried by each exception
(`exception_handler.py` defaults for NotFoundError and BadRequestError;
explicit override for the other two). -/
def Err.status : Err → String
  | .notFound _ => "404 Not Found"
  | .badRequest _ => "400 Bad Request"
  | .taskOp _ s => s
  | .userCreation _ s => s

/-- `manager/user_manage.py::create_user(username)`.
Order of the source: reject a purely numeric username (BadRequest);
reject an already existing username (UserCreationException, status
literally "409 COnflict" in the source); otherwise insert the row and
return `LAST_INSERT_ID()`. -/
def create_user (db : DB) (username : String) : Except Err Nat × DB :=
  if pyIsdigit username then
    (.error (.badRequest "Invalid username. Username cannot be numeric."), db)
  else
    match db.users.find? (fun u => u.username == username) with
    | some _ => (.error (.userCreation "User Already Exists." "409 COnflict"), db)
    | none =>
      let uid := db.nextUserId
      (.ok uid,
        { db with users := db.users ++ [{ id := uid, username := username }],
                  nextUserId := uid + 1 })

/-- `manager/task_manage.py::create_task(user_id, name, description)`.
Checks of the source, in order: the user row must exist (NotFoundError);
`isinstance(user_id, str)` — identically false here since `user_id` is
typed as an integer, so the branch is dead; no task of this user with
the same stripped name (TaskOperationException "409 Conflict"); the
stripped name must be non-empty (BadRequestError).  On success the task
row is inserted with the caller-generated UUID `task_id`, stripped name
and description, server timestamps, and the `status` column default
`Active`; the new id is returned. -/
def create_task (db : DB) (user_id : Nat) (name description : String)
    (task_id : String) : Except Err String × DB :=
  match db.users.find? (fun u => u.id == user_id) with
  | none => (.error (.notFound "User with the given id does not exist."), db)
  | some _ =>
    match db.tasks.find? (fun t => t.user_id == user_id && t.name == pyStrip name) with
    | some _ =>
      (.error (.taskOp "Task with this name already exists for the user" "409 Conflict"), db)
    | none =>
      if pyStrip name = "" then
        (.error (.badRequest "Task name cannot be empty"), db)
      else
        (.ok task_id,
          { db with tasks := db.tasks ++
              [{ id := task_id, user_id := user_id, name := pyStrip name,
                 description := pyStrip description,
                 created_at := db.now, updated_at := db.now,
                 status := "Active" }] })

/-- `manager/task_manage.py::list_tasks(user_id)`.
The source fetches the user row but never uses it; it raises
NotFoundError when `user_id` is falsy (0 for an integer), then selects
all tasks of the user with no status filter, raising NotFoundError when
the result set is empty. -/
def list_tasks (db : DB) (user_id : Nat) : Except Err (List Task) × DB :=
  if user_id = 0 then
    (.error (.notFound "User with the given id does not exist."), db)
  else
    let tasks := db.tasks.filter (fun t => t.user_id == user_id)
    if tasks = [] then
      (.error (.notFound "No tasks found for this user."), db)
    else
      (.ok tasks, db)

/-- `manager/task_manage.py::get_task(task_id)`.
`uuid.UUID(task_id)` is evaluated first; its ValueError is converted to
TaskOperationException "400 Bad Request".  Then the row is selected;
a missing row raises NotFoundError. -/
def get_task (db : DB) (task_id : String) : Except Err Task × DB :=
  if pyUUIDParses task_id then
    match db.tasks.find? (fun t => t.id == task_id) with
    | none => (.error (.notFound "Task with the given id could not be found."), db)
    | some t => (.ok t, db)
  else
    (.error (.taskOp "Invalid Task ID format." "400 Bad Request"), db)

/-- `manager/task_manage.py::update_task(task_id, name, description)`,
with an explicit environment flag `updFails` modelling the database
raising an unexpected error while executing the UPDATE statement.
Source behaviour inside the transaction: `uuid.UUID(task_id)` failure
is converted to TaskOperationException "400 Bad Request"; a missing row
raises NotFoundError after `ROLLBACK` (state unchanged); executing the
UPDATE with an empty SET clause — which the source builds whenever both
`name` and `description` are falsy — is an SQL syntax error, so that
run, like any unexpected execution error (`updFails`), is rolled back
and swallowed (`except Exception`: logged, not re-raised), returning
normally with the state unchanged.  Otherwise each truthy field is
written and the transaction commits. -/
def update_task_env (db : DB) (task_id name description : String)
    (updFails : Bool) : Except Err Unit × DB :=
  let hasName := name != ""
  let hasDesc := description != ""
  if pyUUIDParses task_id then
    match db.tasks.find? (fun t => t.id == task_id) with
    | none => (.error (.notFound "Task with the given id could not be found."), db)
    | some _ =>
      if (!hasName && !hasDesc) || updFails then
        (.ok (), db)
      else
        (.ok (),
          { db with tasks := db.tasks.map (fun t =>
              if t.id == task_id then
                { t with
                  name := if hasName then name else t.name,
                  description := if hasDesc then description else t.description,
                  updated_at := db.now }
              else t) })
  else
    (.error (.taskOp "Invalid Task ID format." "400 Bad Request"), db)

/-- `manager/task_manage.py::update_task` in a normal run (the database
does not fail while executing the UPDATE statement). -/
def update_task (db : DB) (task_id name description : String) :
    Except Err Unit × DB :=
  update_task_env db task_id name description false

/-- `manager/task_manage.py::delete_task(task_id)`.
The source performs no UUID validation: it selects the row directly,
raises NotFoundError when it is missing, and otherwise deletes it and
commits. -/
def delete_task (db : DB) (task_id : String) : Except Err Unit × DB :=
  match db.tasks.find? (fun t => t.id == task_id) with
  | none =>
    (.error (.notFound "Task with the given id could not be found. Enter an existing Task ID"), db)
  | some _ =>
    (.ok (), { db with tasks := db.tasks.filter (fun t => !(t.id == task_id)) })

/-- `manager/task_manage.py::change_task_status(task_id, status)`.
`uuid.UUID(task_id)` failure is converted to TaskOperationException
"400 Bad Request"; a missing row raises NotFoundError; otherwise
`UPDATE tasks SET status = %s WHERE id = %s` writes the caller-supplied
status (no validation against the enum) and the `ON UPDATE
CURRENT_TIMESTAMP` column `updated_at` is refreshed. -/
def change_task_status (db : DB) (task_id stat : String) : Except Err Unit × DB :=
  if pyUUIDParses task_id then
    match db.tasks.find? (fun t => t.id == task_id) with
    | none => (.error (.notFound "Task with the given id could not be found"), db)
    | some _ =>
      (.ok (), { db with tasks := db.tasks.map (fun t =>
          if t.id == task_id then { t with status := stat, updated_at := db.now }
          else t) })
  else
    (.error (.taskOp "Invalid Task ID format." "400 Bad Request"), db)

/-- The columns of a task row other than `status` and `updated_at`:
the part `change_task_status` must leave untouched. -/
def Task.frame (t : Task) : String × Nat × String × String × Nat :=
  (t.id, t.user_id, t.name, t.description, t.created_at)

/-- A canonical UUID string, as `str(uuid.uuid4())` produces. -/
def uuidA : String := "123e4567-e89b-12d3-a456-426614174000"

/-- A second well-formed UUID string, distinct from `uuidA`. -/
def uuidB : String := "00000000-0000-0000-0000-00000000beef"

/-- A sample stored task owned by user 101. -/
def taskA : Task :=
  { id := uuidA, user_id := 101, name := "buy milk", description := "2%",
    created_at := 0, updated_at := 0, status := "Active" }

/-- A sample database: user alice (id 101) owning `taskA`. -/
def dbA : DB :=
  { users := [{ id := 101, username := "alice" }], nextUserId := 102,
    tasks := [taskA], now := 7 }

/-- A task whose primary key is not UUID-formatted, to probe the
operations' UUID validation. -/
def taskBad : Task :=
  { id := "bad", user_id := 101, name := "n", description := "d",
    created_at := 0, updated_at := 0, status := "Active" }

/-- A database containing `taskBad`. -/
def dbBad : DB :=
  { users := [{ id := 101, username := "alice" }], nextUserId := 102,
    tasks := [taskBad], now := 3 }

theorem find?_map_pres (p : Task → Bool) (g : Task → Task)
    (hp : ∀ t, p (g t) = p t) (l : List Task) :
    (l.map g).find? p = (l.find? p).map g := by
  induction l with
  | nil => rfl
  | cons a l ih =>
    cases h : p a with
    | true =>
      rw [List.map_cons, List.find?_cons_of_pos _ (by rw [hp]; exact h),
          List.find?_cons_of_pos _ h, Option.map_some']
    | false =>
      rw [List.map_cons, List.find?_cons_of_neg _ (by rw [hp, h]; decide),
          List.find?_cons_of_neg _ (by rw [h]; decide), ih]

theorem filter_map_pres (q : Task → Bool) (g : Task → Task)
    (hq : ∀ t, q (g t) = q t) (hg : ∀ t, q t = true → g t = t) (l : List Task) :
    (l.map g).filter q = l.filter q := by
  induction l with
  | nil => rfl
  | cons a l ih =>
    cases h : q a with
    | true =>
      rw [List.map_cons, List.filter_cons_of_pos (by rw [hq]; exact h),
          List.filter_cons_of_pos h, hg a h, ih]
    | false =>
      rw [List.map_cons, List.filter_cons_of_neg (by rw [hq, h]; decide),
          List.filter_cons_of_neg (by rw [h]; decide), ih]

theorem map_map_pres (g : Task → Task)
    (h : ∀ t, Task.frame (g t) = Task.frame t) (l : List Task) :
    (l.map g).map Task.frame = l.map Task.frame := by
  induction l with
  | nil => rfl
  | cons a l ih => rw [List.map_cons, List.map_cons, List.map_cons, h, ih]

theorem find?_map_some (p : Task → Bool) (g : Task → Task) (t t' : Task)
    (hp : ∀ x, p (g x) = p x) (hg : g t = t') (l : List Task)
    (ht : l.find? p = some t) : (l.map g).find? p = some t' := by
  rw [find?_map_pres p g hp l, ht, Option.map_some', hg]

theorem change_task_status_found (db : DB) (tid stat : String) (t : Task)
    (hp : pyUUIDParses tid = true)
    (ht : db.tasks.find? (fun x => x.id == tid) = some t) :
    change_task_status db tid stat
      = (.ok (), { db with tasks := db.tasks.map (fun x =>
          if x.id == tid then { x with status := stat, updated_at := db.now }
          else x) }) := by
  unfold change_task_status
  rw [if_pos hp, ht]

theorem find?_append_none (p : User → Bool) (l1 l2 : List User)
    (h : l1.find? p = none) : (l1 ++ l2).find? p = l2.find? p := by
  induction l1 with
  | nil => rfl
  | cons a l ih =>
    cases hh : p a with
    | true =>
      rw [List.find?_cons_of_pos _ hh] at h
      exact absurd h (by simp)
    | false =>
      rw [List.cons_append, List.find?_cons_of_neg _ (by rw [hh]; decide)]
      rw [List.find?_cons_of_neg _ (by rw [hh]; decide)] at h
      exact ih h

/-- C2 counterexample: the string "bad" does not parse as a UUID, yet
`delete_task` — unlike the other task-id operations — performs no UUID
validation: the lookup and the delete are executed, the matching row is
removed and the call succeeds, instead of being rejected before any
database access with the 400 format error `get_task` raises on the very
same input. -/
theorem delete_task_skips_uuid_validation_cex :
    pyUUIDParses "bad" = false ∧
    delete_task dbBad "bad" = (.ok (), { dbBad with tasks := [] }) ∧
    get_task dbBad "bad"
      = (.error (.taskOp "Invalid Task ID format." "400 Bad Request"), dbBad) :=
  ⟨by decide, by rfl, by rfl⟩

/-- C2 (amended): `get_task`, `update_task` and `change_task_status`
reject a task id that does not parse as a UUID with the 400-status
TaskOperationException before any lookup or mutation, leaving the state
unchanged; `delete_task` performs no UUID validation at all and goes
straight to the existence lookup — failing NotFound when no row has
that id, and deleting the row when one does. -/
theorem uuid_validation_amended (db : DB) (tid : String)
    (h : pyUUIDParses tid = false) :
    get_task db tid
      = (.error (.taskOp "Invalid Task ID format." "400 Bad Request"), db) ∧
    (∀ n d fails, update_task_env db tid n d fails
      = (.error (.taskOp "Invalid Task ID format." "400 Bad Request"), db)) ∧
    (∀ s, change_task_status db tid s
      = (.error (.taskOp "Invalid Task ID format." "400 Bad Request"), db)) ∧
    (db.tasks.find? (fun t => t.id == tid) = none →
      delete_task db tid
        = (.error (.notFound "Task with the given id could not be found. Enter an existing Task ID"), db)) ∧
    (∀ t, db.tasks.find? (fun x => x.id == tid) = some t →
      delete_task db tid
        = (.ok (), { db with tasks := db.tasks.filter (fun x => !(x.id == tid)) })) := by
  refine ⟨?_, ?_, ?_, ?_, ?_⟩
  · simp [get_task, h]
  · intro n d fails
    simp [update_task_env, h]
  · intro s
    simp [change_task_status, h]
  · intro hn
    simp [delete_task, hn]
  · intro t ht
    simp [delete_task, ht]

/-- C2 witness: on the malformed id "bad", the three validating
operations return the 400 error with the state unchanged, while
`delete_task` goes through and removes the matching row. -/
theorem uuid_validation_amended_wit :
    update_task_env dbBad "bad" "n" "" false
      = (.error (.taskOp "Invalid Task ID format." "400 Bad Request"), dbBad) ∧
    change_task_status dbBad "bad" "Archive"
      = (.error (.taskOp "Invalid Task ID format." "400 Bad Request"), dbBad) ∧
    delete_task dbBad "bad" = (.ok (), { dbBad with tasks := [] }) :=
  ⟨(uuid_validation_amended dbBad "bad" (by decide)).2.1 "n" "" false,
   (uuid_validation_amended dbBad "bad" (by decide)).2.2.1 "Archive",
   (uuid_validation_amended dbBad "bad" (by decide)).2.2.2.2 taskBad (by decide)⟩

/-- C1: `create_task` checks its preconditions in the source's order —
missing user first (NotFound), then the duplicate-trimmed-name check
(TaskOperationException "409 Conflict", which fires even when the name
is empty after trimming), then the empty-trimmed-name check
(BadRequest); the `isinstance(user_id, str)` check between the first
two is identically false for the integer-typed argument and cannot
fire.  When all checks pass, one task is inserted with the freshly
generated UUID, the trimmed name and description, and Active status,
and the new id is returned. -/
theorem create_task_checks_in_order (db : DB) (uid : Nat)
    (nm desc fresh : String) :
    (db.users.find? (fun u => u.id == uid) = none →
      create_task db uid nm desc fresh
        = (.error (.notFound "User with the given id does not exist."), db)) ∧
    ((db.users.find? (fun u => u.id == uid)).isSome = true →
      (db.tasks.find? (fun t => t.user_id == uid && t.name == pyStrip nm)).isSome = true →
      create_task db uid nm desc fresh
        = (.error (.taskOp "Task with this name already exists for the user" "409 Conflict"), db)) ∧
    ((db.users.find? (fun u => u.id == uid)).isSome = true →
      db.tasks.find? (fun t => t.user_id == uid && t.name == pyStrip nm) = none →
      pyStrip nm = "" →
      create_task db uid nm desc fresh
        = (.error (.badRequest "Task name cannot be empty"), db)) ∧
    ((db.users.find? (fun u => u.id == uid)).isSome = true →
      db.tasks.find? (fun t => t.user_id == uid && t.name == pyStrip nm) = none →
      pyStrip nm ≠ "" →
      create_task db uid nm desc fresh
        = (.ok fresh,
           { db with tasks := db.tasks ++
               [{ id := fresh, user_id := uid, name := pyStrip nm,
                  description := pyStrip desc, created_at := db.now,
                  updated_at := db.now, status := "Active" }] })) := by
  refine ⟨?_, ?_, ?_, ?_⟩
  · intro h
    simp [create_task, h]
  · intro hu ht
    obtain ⟨u, hu⟩ := Option.isSome_iff_exists.mp hu
    obtain ⟨t0, ht⟩ := Option.isSome_iff_exists.mp ht
    simp [create_task, hu, ht]
  · intro hu ht he
    obtain ⟨u, hu⟩ := Option.isSome_iff_exists.mp hu
    rw [he] at ht
    simp [create_task, hu, ht, he]
  · intro hu ht he
    obtain ⟨u, hu⟩ := Option.isSome_iff_exists.mp hu
    simp [create_task, hu, ht, he]

/-- C1 witness: a missing user fails NotFound; with user 101 present
and no duplicate, the task is inserted trimmed and Active and the fresh
id is returned. -/
theorem create_task_checks_in_order_wit :
    create_task dbA 555 "x" "y" uuidB
      = (.error (.notFound "User with the given id does not exist."), dbA) ∧
    create_task dbA 101 " water " " fresh  " uuidB
      = (.ok uuidB,
         { dbA with tasks := dbA.tasks ++
             [{ id := uuidB, user_id := 101, name := "water",
                description := "fresh", created_at := 7, updated_at := 7,
                status := "Active" }] }) :=
  ⟨(create_task_checks_in_order dbA 555 "x" "y" uuidB).1 (by decide),
   (create_task_checks_in_order dbA 101 " water " " fresh  " uuidB).2.2.2
     (by decide) (by decide) (by decide)⟩

/-- C3: `list_tasks` fails NotFound on a falsy (zero) user id, fails
NotFound when the user owns no tasks, and otherwise returns exactly the
tasks whose `user_id` matches — with no status filter, so every task of
the user, Active or Archive, is in the returned list. -/
theorem list_tasks_spec (db : DB) (uid : Nat) :
    (uid = 0 →
      list_tasks db uid
        = (.error (.notFound "User with the given id does not exist."), db)) ∧
    (uid ≠ 0 → db.tasks.filter (fun t => t.user_id == uid) = [] →
      list_tasks db uid = (.error (.notFound "No tasks found for this user."), db)) ∧
    (uid ≠ 0 → db.tasks.filter (fun t => t.user_id == uid) ≠ [] →
      list_tasks db uid = (.ok (db.tasks.filter (fun t => t.user_id == uid)), db)) ∧
    (∀ t ∈ db.tasks, t.user_id = uid →
      t ∈ db.tasks.filter (fun x => x.user_id == uid)) := by
  refine ⟨?_, ?_, ?_, ?_⟩
  · intro h
    simp [list_tasks, h]
  · intro h he
    simp [list_tasks, h, he]
  · intro h he
    simp [list_tasks, h, he]
  · intro t ht hu
    simp [List.mem_filter, ht, hu]

/-- C3 witness: user 101 owns `taskA`, which is returned; user id 0
fails NotFound. -/
theorem list_tasks_spec_wit :
    list_tasks dbA 101 = (.ok [taskA], dbA) ∧
    list_tasks dbA 0
      = (.error (.notFound "User with the given id does not exist."), dbA) :=
  ⟨(list_tasks_spec dbA 101).2.2.1 (by decide) (by decide),
   (list_tasks_spec dbA 0).1 rfl⟩

/-- C4: on an existing task, `update_task` with both fields empty
builds an empty SET clause whose execution fails and is swallowed after
rollback, so the call returns normally and the database — every field
of every task — is exactly the pre-state. -/
theorem update_task_noop_both_empty (db : DB) (tid : String)
    (hp : pyUUIDParses tid = true)
    (ht : (db.tasks.find? (fun t => t.id == tid)).isSome = true) :
    update_task db tid "" "" = (.ok (), db) := by
  obtain ⟨t, ht⟩ := Option.isSome_iff_exists.mp ht
  simp [update_task, update_task_env, hp, ht]

/-- C4 witness: the no-op update on `dbA`'s stored task. -/
theorem update_task_noop_both_empty_wit :
    update_task dbA uuidA "" "" = (.ok (), dbA) :=
  update_task_noop_both_empty dbA uuidA (by decide) (by decide)

/-- C5: inside `update_task`'s transaction, a missing task rolls back
and propagates NotFoundError with the state unchanged; any other
unexpected failure while executing the UPDATE (`updFails`) rolls back
and is swallowed — the call returns normally and the state is
unchanged. -/
theorem update_task_rollback_spec (db : DB) (tid n d : String) (fails : Bool)
    (hp : pyUUIDParses tid = true) :
    (db.tasks.find? (fun t => t.id == tid) = none →
      update_task_env db tid n d fails
        = (.error (.notFound "Task with the given id could not be found."), db)) ∧
    ((db.tasks.find? (fun t => t.id == tid)).isSome = true → fails = true →
      update_task_env db tid n d fails = (.ok (), db)) := by
  constructor
  · intro h
    simp [update_task_env, hp, h]
  · intro ht hf
    obtain ⟨t, ht⟩ := Option.isSome_iff_exists.mp ht
    simp [update_task_env, hp, ht, hf]

/-- C5 witness: an unknown UUID propagates NotFound with `dbA`
unchanged; a failing UPDATE on the stored task returns normally with
`dbA` unchanged. -/
theorem update_task_rollback_spec_wit :
    update_task_env dbA uuidB "n" "d" false
      = (.error (.notFound "Task with the given id could not be found."), dbA) ∧
    update_task_env dbA uuidA "n" "d" true = (.ok (), dbA) :=
  ⟨(update_task_rollback_spec dbA uuidB "n" "d" false (by decide)).1 (by decide),
   (update_task_rollback_spec dbA uuidA "n" "d" true (by decide)).2 (by decide) rfl⟩

/-- C6 counterexample: Python's `"".isdigit()` is false, so the empty
username passes the numeric check and, being unused, is inserted: the
call returns the new id 101 instead of failing BadRequest. -/
theorem create_user_empty_username_cex :
    pyIsdigit "" = false ∧
    create_user initDB ""
      = (.ok 101, { users := [{ id := 101, username := "" }], nextUserId := 102,
                    tasks := [], now := 0 }) :=
  ⟨by decide, by rfl⟩

/-- C6 (amended): `create_user` fails BadRequest exactly when the
username is non-empty and consists solely of digits; the empty username
is not rejected.  Every username that is not purely numeric and does
not already exist is inserted and the newly assigned id is returned —
101 for the first-ever user on a fresh database. -/
theorem create_user_amended (db : DB) (uname : String) :
    (pyIsdigit uname = true →
      create_user db uname
        = (.error (.badRequest "Invalid username. Username cannot be numeric."), db)) ∧
    (pyIsdigit uname = false →
      db.users.find? (fun u => u.username == uname) = none →
      create_user db uname
        = (.ok db.nextUserId,
           { db with
               users := db.users ++ [{ id := db.nextUserId, username := uname }],
               nextUserId := db.nextUserId + 1 })) ∧
    (pyIsdigit uname = false → db.users = [] → db.nextUserId = 101 →
      (create_user db uname).1 = .ok 101) := by
  refine ⟨?_, ?_, ?_⟩
  · intro h
    simp [create_user, h]
  · intro h hn
    simp [create_user, h, hn]
  · intro h h0 h1
    simp [create_user, h, h0, h1]

/-- C6 witness: a purely numeric username fails BadRequest with the
database unchanged; a fresh non-numeric username on an initial database
is inserted with id 101. -/
theorem create_user_amended_wit :
    create_user initDB "123"
      = (.error (.badRequest "Invalid username. Username cannot be numeric."), initDB) ∧
    create_user initDB "bob"
      = (.ok 101, { users := [{ id := 101, username := "bob" }], nextUserId := 102,
                    tasks := [], now := 0 }) :=
  ⟨(create_user_amended initDB "123").1 (by decide),
   (create_user_amended initDB "bob").2.1 (by decide) (by decide)⟩

/-- C7: creating the same username twice makes the second call fail
with UserCreationException carrying the status text "409 COnflict" (the
source's literal), and the second call leaves the state exactly as the
first call left it — no row inserted.  The duplicate check compares
usernames by exact string equality. -/
theorem create_user_duplicate_conflict (db : DB) (uname : String)
    (hd : pyIsdigit uname = false)
    (hn : db.users.find? (fun u => u.username == uname) = none) :
    (create_user db uname).1 = .ok db.nextUserId ∧
    create_user (create_user db uname).2 uname
      = (.error (.userCreation "User Already Exists." "409 COnflict"),
         (create_user db uname).2) := by
  have h1 : create_user db uname
      = (.ok db.nextUserId,
         { db with
             users := db.users ++ [{ id := db.nextUserId, username := uname }],
             nextUserId := db.nextUserId + 1 }) := by
    simp [create_user, hd, hn]
  rw [h1]
  refine ⟨rfl, ?_⟩
  have hfind : (db.users ++ [({ id := db.nextUserId, username := uname } : User)]).find?
      (fun u => u.username == uname)
        = some { id := db.nextUserId, username := uname } := by
    rw [find?_append_none _ _ _ hn]
    simp
  simp [create_user, hd, hfind]

/-- C7 witness: alice then alice on a fresh database. -/
theorem create_user_duplicate_conflict_wit :
    (create_user initDB "alice").1 = .ok 101 ∧
    create_user (create_user initDB "alice").2 "alice"
      = (.error (.userCreation "User Already Exists." "409 COnflict"),
         (create_user initDB "alice").2) :=
  create_user_duplicate_conflict initDB "alice" (by decide) (by decide)

/-- C8: `get_task` fails with the 400-status TaskOperationException on
every `task_id` that does not parse as a UUID, fails with NotFoundError
(status "404 Not Found") on every parsing id with no matching row, and
returns the stored task when a row matches. -/
theorem get_task_spec (db : DB) (tid : String) :
    (pyUUIDParses tid = false →
      get_task db tid
        = (.error (.taskOp "Invalid Task ID format." "400 Bad Request"), db) ∧
      Err.status (.taskOp "Invalid Task ID format." "400 Bad Request")
        = "400 Bad Request") ∧
    (pyUUIDParses tid = true →
      db.tasks.find? (fun t => t.id == tid) = none →
      get_task db tid
        = (.error (.notFound "Task with the given id could not be found."), db) ∧
      Err.status (.notFound "Task with the given id could not be found.")
        = "404 Not Found") ∧
    (∀ t, pyUUIDParses tid = true →
      db.tasks.find? (fun x => x.id == tid) = some t →
      get_task db tid = (.ok t, db)) := by
  refine ⟨?_, ?_, ?_⟩
  · intro h
    exact ⟨by simp [get_task, h], rfl⟩
  · intro h hn
    exact ⟨by simp [get_task, h, hn], rfl⟩
  · intro t h ht
    simp [get_task, h, ht]

/-- C8 witness: on `dbA`, a malformed id gives the 400 error, an
unknown well-formed UUID gives 404, and the stored id returns the task. -/
theorem get_task_spec_wit :
    get_task dbA "bad"
      = (.error (.taskOp "Invalid Task ID format." "400 Bad Request"), dbA) ∧
    get_task dbA uuidB
      = (.error (.notFound "Task with the given id could not be found."), dbA) ∧
    get_task dbA uuidA = (.ok taskA, dbA) :=
  ⟨((get_task_spec dbA "bad").1 (by decide)).1,
   ((get_task_spec dbA uuidB).2.1 (by decide) (by decide)).1,
   (get_task_spec dbA uuidA).2.2 taskA (by decide) (by decide)⟩

/-- C9: on an existing task, `change_task_status(id, "Archive")`
followed by `get_task(id)` yields a task whose status is "Archive", and
a further `change_task_status(id, "Active")` followed by `get_task(id)`
yields status "Active" again — the round trip through the two
enumerated states. -/
theorem change_status_roundtrip (db : DB) (tid : String) (t : Task)
    (hp : pyUUIDParses tid = true)
    (ht : db.tasks.find? (fun x => x.id == tid) = some t) :
    (change_task_status db tid "Archive").1 = .ok () ∧
    (∃ t1, (get_task (change_task_status db tid "Archive").2 tid).1 = .ok t1 ∧
      t1.status = "Archive") ∧
    (∃ t2,
      (get_task (change_task_status
          (change_task_status db tid "Archive").2 tid "Active").2 tid).1 = .ok t2 ∧
      t2.status = "Active") := by
  have htid : (t.id == tid) = true := by
    have h0 := List.find?_some ht
    simpa using h0
  have hpres : ∀ (s : String) (n : Nat) (x : Task),
      ((if x.id == tid then { x with status := s, updated_at := n } else x).id == tid)
        = (x.id == tid) := by
    intro s n x
    by_cases hx : x.id = tid <;> simp [hx]
  have hA := change_task_status_found db tid "Archive" t hp ht
  have hfindA : ((change_task_status db tid "Archive").2).tasks.find?
      (fun x => x.id == tid)
      = some { t with status := "Archive", updated_at := db.now } := by
    rw [hA]
    exact find?_map_some _ _ t _ (hpres "Archive" db.now) (by simp [htid])
      db.tasks ht
  have hgetA : get_task ((change_task_status db tid "Archive").2) tid
      = (.ok { t with status := "Archive", updated_at := db.now },
         (change_task_status db tid "Archive").2) := by
    unfold get_task
    rw [if_pos hp, hfindA]
  have hB := change_task_status_found ((change_task_status db tid "Archive").2)
      tid "Active" { t with status := "Archive", updated_at := db.now } hp hfindA
  have hfindB : ((change_task_status ((change_task_status db tid "Archive").2)
        tid "Active").2).tasks.find? (fun x => x.id == tid)
      = some { t with
          status := "Active",
          updated_at := ((change_task_status db tid "Archive").2).now } := by
    rw [hB]
    exact find?_map_some _ _ { t with status := "Archive", updated_at := db.now } _
      (hpres "Active" ((change_task_status db tid "Archive").2).now)
      (by simp [htid]) ((change_task_status db tid "Archive").2).tasks hfindA
  have hgetB : get_task ((change_task_status ((change_task_status db tid "Archive").2)
        tid "Active").2) tid
      = (.ok { t with
           status := "Active",
           updated_at := ((change_task_status db tid "Archive").2).now },
         (change_task_status ((change_task_status db tid "Archive").2)
           tid "Active").2) := by
    unfold get_task
    rw [if_pos hp, hfindB]
  refine ⟨by rw [hA],
    ⟨{ t with status := "Archive", updated_at := db.now }, by rw [hgetA], rfl⟩,
    ⟨{ t with
        status := "Active",
        updated_at := ((change_task_status db tid "Archive").2).now },
      by rw [hgetB], rfl⟩⟩

/-- C9 witness: the round trip on `dbA`'s stored task. -/
theorem change_status_roundtrip_wit :
    (change_task_status dbA uuidA "Archive").1 = .ok () ∧
    (∃ t1, (get_task (change_task_status dbA uuidA "Archive").2 uuidA).1 = .ok t1 ∧
      t1.status = "Archive") ∧
    (∃ t2,
      (get_task (change_task_status
          (change_task_status dbA uuidA "Archive").2 uuidA "Active").2 uuidA).1 = .ok t2 ∧
      t2.status = "Active") :=
  change_status_roundtrip dbA uuidA taskA (by decide) (by decide)

/-- C10: `change_task_status` on an existing task touches only the
matching row's `status` (and the auto-updated `updated_at`): the users
table, the auto-increment counter and the clock are unchanged, every
task keeps its id, user_id, name, description and created_at, and every
row whose id differs from `task_id` is identical in every column. -/
theorem change_task_status_frame (db : DB) (tid stat : String)
    (hp : pyUUIDParses tid = true)
    (ht : (db.tasks.find? (fun x => x.id == tid)).isSome = true) :
    ((change_task_status db tid stat).2).users = db.users ∧
    ((change_task_status db tid stat).2).nextUserId = db.nextUserId ∧
    ((change_task_status db tid stat).2).now = db.now ∧
    ((change_task_status db tid stat).2).tasks.map Task.frame
      = db.tasks.map Task.frame ∧
    ((change_task_status db tid stat).2).tasks.filter (fun x => !(x.id == tid))
      = db.tasks.filter (fun x => !(x.id == tid)) := by
  obtain ⟨t, ht⟩ := Option.isSome_iff_exists.mp ht
  have hA := change_task_status_found db tid stat t hp ht
  rw [hA]
  refine ⟨rfl, rfl, rfl, ?_, ?_⟩
  · exact map_map_pres _ (fun x => by
      by_cases hx : x.id = tid <;> simp [hx, Task.frame]) db.tasks
  · exact filter_map_pres _ _
      (fun x => by by_cases hx : x.id = tid <;> simp [hx])
      (fun x hq => by
        by_cases hx : x.id = tid
        · simp [hx] at hq
        · simp [hx]) db.tasks

/-- C10 witness: archiving `dbA`'s stored task preserves the users
table, the counter, the clock, every non-status column of the task, and
(vacuously here) every other row. -/
theorem change_task_status_frame_wit :
    ((change_task_status dbA uuidA "Archive").2).users = dbA.users ∧
    ((change_task_status dbA uuidA "Archive").2).nextUserId = dbA.nextUserId ∧
    ((change_task_status dbA uuidA "Archive").2).now = dbA.now ∧
    ((change_task_status dbA uuidA "Archive").2).tasks.map Task.frame
      = dbA.tasks.map Task.frame ∧
    ((change_task_status dbA uuidA "Archive").2).tasks.filter (fun x => !(x.id == uuidA))
      = dbA.tasks.filter (fun x => !(x.id == uuidA)) :=
  change_task_status_frame dbA uuidA "Archive" (by decide) (by decide)

end TaskMgmt
